import Mathlib

/-!
Shallow embedding of the two scripts of this repository:
`test-scripts/visualParser.py` and `test-scripts/textParser.py`.

Library calls (pdf2image, OpenCV, scikit-learn, PyMuPDF, pdfplumber) are
modelled as oracle parameters; all glue logic written in the scripts
themselves (parameter choices, loops, filters, record construction,
exception structure) is embedded faithfully.  Machine floats of the source
are modelled by exact rationals where the computation is field arithmetic,
and by real numbers where the source uses transcendental functions
(`np.arctan2`, `np.sqrt`).
-/

namespace VisualParser

/-- Grayscale raster image: `pixel y x` is the 8-bit gray value at row `y`,
column `x` (numpy indexing order, as in `gray_image[y, x]`). -/
structure GrayImage where
  height : Nat
  width : Nat
  pixel : Nat → Nat → Nat

/-- Color raster image in OpenCV BGR channel order after
`cv2.cvtColor(np.array(pages[0]), cv2.COLOR_RGB2BGR)`:
`pixel y x = (b, g, r)`. -/
structure ColorImage where
  height : Nat
  width : Nat
  pixel : Nat → Nat → Nat × Nat × Nat

/-- Embedding of `cv2.cvtColor(img, cv2.COLOR_BGR2GRAY)`: the standard
luma weights 0.299 R + 0.587 G + 0.114 B, rounded to the nearest integer. -/
def grayOf (img : ColorImage) : GrayImage :=
  { height := img.height
    width := img.width
    pixel := fun y x =>
      let c := img.pixel y x
      (round ((299 * (c.2.2 : ℚ) + 587 * (c.2.1 : ℚ) + 114 * (c.1 : ℚ)) / 1000)).toNat }

/-- Python `round(v, 2)` on a rational value: round to the nearest
multiple of 1/100. -/
def round2 (q : ℚ) : ℚ := (round (q * 100) : ℤ) / 100

/-- Python `round(v, 2)` on a real value (used for the fields computed
with transcendental functions: `length` and `angle`). -/
noncomputable def round2R (x : ℝ) : ℝ := (round (x * 100) : ℤ) / 100

/-- Python `int(q)`: truncation toward zero. -/
def pyInt (q : ℚ) : ℤ := if 0 ≤ q then ⌊q⌋ else ⌈q⌉

/-- One Hough line segment `x1, y1, x2, y2 = line[0]` as returned by
`cv2.HoughLinesP` (pixel coordinates, nonnegative integers). -/
structure Segment where
  x1 : Nat
  y1 : Nat
  x2 : Nat
  y2 : Nat

/-- A line record as built by `detect_lines` (visualParser.py lines 98-111).
Positions are in points with 2-decimal rounding; `length` and `angle` are
the float fields of the source, modelled over the reals. -/
structure LineRecord where
  element_type : String
  orientation : String
  line_style : String
  x1 : ℚ
  y1 : ℚ
  x2 : ℚ
  y2 : ℚ
  length : ℝ
  angle : ℝ

section AngleClassification

open Classical

/-- Embedding of `np.arctan2 y x` (the mathematical two-argument
arctangent with the numpy sign conventions, in radians). -/
noncomputable def pyAtan2 (y x : ℝ) : ℝ :=
  if 0 < x then Real.arctan (y / x)
  else if x < 0 ∧ 0 ≤ y then Real.arctan (y / x) + Real.pi
  else if x < 0 ∧ y < 0 then Real.arctan (y / x) - Real.pi
  else if 0 < y then Real.pi / 2
  else if y < 0 then -(Real.pi / 2)
  else 0

/-- Orientation classification of visualParser.py lines 88-93, a function
of the angle (in degrees) alone. -/
noncomputable def classifyOrientation (angle : ℝ) : String :=
  if |angle| < 10 ∨ |angle - 180| < 10 then "horizontal"
  else if |angle - 90| < 10 ∨ |angle + 90| < 10 then "vertical"
  else "diagonal"

end AngleClassification

/-- Number of the 20 evenly spaced samples of `detect_line_style` that are
in bounds and land on a dark pixel (gray value < 128).  The sample
coordinates use Python `int(...)`; the interpolated coordinates are convex
combinations of nonnegative endpoints, hence nonnegative, so truncation
toward zero coincides with the floor used here. -/
def sampleBlackCount (gray : GrayImage) (x1 y1 x2 y2 : Nat) : Nat :=
  (List.range 20).countP fun i =>
    let t : ℚ := (i : ℚ) / 19
    let x : ℤ := ⌊(x1 : ℚ) + t * ((x2 : ℚ) - (x1 : ℚ))⌋
    let y : ℤ := ⌊(y1 : ℚ) + t * ((y2 : ℚ) - (y1 : ℚ))⌋
    decide (0 ≤ x ∧ x < gray.width ∧ 0 ≤ y ∧ y < gray.height ∧
      gray.pixel y.toNat x.toNat < 128)

/-- Embedding of `detect_line_style` (visualParser.py lines 115-135). -/
def detect_line_style (gray : GrayImage) (x1 y1 x2 y2 : Nat) : String :=
  if (sampleBlackCount gray x1 y1 x2 y2 : ℚ) / 20 < 7 / 10 then "dotted"
  else "solid"

/-- The line record built for one Hough segment in the loop of
`detect_lines` (visualParser.py lines 74-111). -/
noncomputable def mkLineRecord (gray : GrayImage) (dpi : ℚ) (s : Segment) :
    LineRecord :=
  let points_per_pixel : ℚ := 72 / dpi
  let dx : ℤ := (s.x2 : ℤ) - (s.x1 : ℤ)
  let dy : ℤ := (s.y2 : ℤ) - (s.y1 : ℤ)
  let length : ℝ := Real.sqrt (((dx : ℝ)) ^ 2 + ((dy : ℝ)) ^ 2)
  let angle : ℝ := pyAtan2 (dy : ℝ) (dx : ℝ) * 180 / Real.pi
  { element_type := "line"
    orientation := classifyOrientation angle
    line_style := detect_line_style gray s.x1 s.y1 s.x2 s.y2
    x1 := round2 ((s.x1 : ℚ) * points_per_pixel)
    y1 := round2 ((s.y1 : ℚ) * points_per_pixel)
    x2 := round2 ((s.x2 : ℚ) * points_per_pixel)
    y2 := round2 ((s.y2 : ℚ) * points_per_pixel)
    length := round2R (length * ((points_per_pixel : ℚ) : ℝ))
    angle := round2R angle }

/-- Embedding of `detect_lines` (visualParser.py lines 60-113).  The
composite `cv2.Canny` + `cv2.HoughLinesP` library call is the oracle
`houghO`; `none` models the `lines is None` case. -/
noncomputable def detect_lines (houghO : GrayImage → Option (List Segment))
    (gray_image : GrayImage) (dpi : ℚ) : List LineRecord :=
  match houghO gray_image with
  | none => []
  | some lines => lines.map (mkLineRecord gray_image dpi)

/-- Python `round(v, 1)` on a rational value. -/
def round1 (q : ℚ) : ℚ := (round (q * 10) : ℤ) / 10

/-- One entry of the `cv2.matchTemplate` score array: a location together
with its normalized correlation score.  The oracle enumerates the whole
array; the threshold filter `np.where(result >= threshold)` is applied in
the embedded code below. -/
structure MatchPoint where
  x : Nat
  y : Nat
  score : ℚ

/-- One contour as returned by the `cv2.findContours` /
`cv2.approxPolyDP` / `cv2.boundingRect` / `cv2.contourArea` library
combination: corner count of the approximated polygon, bounding rectangle
and area. -/
structure Contour where
  approxCorners : Nat
  x : Nat
  y : Nat
  w : Nat
  h : Nat
  area : ℚ

/-- A checkbox record as built by `detect_checkboxes` (visualParser.py
lines 231-243 and 279-295).  Fields only present for one of the two
detection methods are `Option`s. -/
structure CheckboxRecord where
  element_type : String
  detection_method : String
  x : ℚ
  y : ℚ
  width : ℚ
  height : ℚ
  confidence : Option ℚ
  aspect_ratio : Option ℚ
  extent : Option ℚ
  area : Option ℚ
  interior_brightness : Option ℚ

/-- Indices selected by a numpy slice `a[start:stop]` along an axis of
length `len` (nonnegative bounds clip to the array length). -/
def sliceIdx (start stop len : Nat) : List Nat :=
  List.range' (min start len) (min stop len - min start len)

/-- Mean gray value of the interior region
`gray_image[y+3:y+h-3, x+3:x+w-3]` (visualParser.py line 275), and its
pixel count.  Returns `(count, mean)`; the mean is 0 when the slice is
empty (the source guards on `roi.size > 0` before using it). -/
def roiStats (gray : GrayImage) (x y w h : Nat) : Nat × ℚ :=
  let rows := sliceIdx (y + 3) (y + h - 3) gray.height
  let cols := sliceIdx (x + 3) (x + w - 3) gray.width
  let count := rows.length * cols.length
  let total : ℚ := rows.foldl (fun acc r =>
    cols.foldl (fun acc2 c => acc2 + (gray.pixel r c : ℚ)) acc) 0
  (count, if count = 0 then 0 else total / (count : ℚ))

/-- The duplicate test of visualParser.py lines 302-303: the two records
sit within 10 points of each other in both coordinates. -/
def isDuplicatePos (cb existing : CheckboxRecord) : Bool :=
  decide (|cb.x - existing.x| < 10 ∧ |cb.y - existing.y| < 10)

/-- The duplicate-removal loop of `detect_checkboxes` (visualParser.py
lines 297-307): keep a candidate only when no previously kept record is
within the 10-point tolerance in both coordinates. -/
def removeDuplicateCheckboxes (cbs : List CheckboxRecord) :
    List CheckboxRecord :=
  cbs.foldl
    (fun unique cb =>
      if unique.any (fun existing => isDuplicatePos cb existing) then unique
      else unique ++ [cb])
    []

/-- Embedding of `detect_checkboxes` (visualParser.py lines 213-309).
`matchO` enumerates the `cv2.matchTemplate` score array for the fixed
20-pixel box template, `contourO` the contour analysis results; all
filtering, record construction and deduplication are embedded. -/
def detect_checkboxes (matchO : GrayImage → List MatchPoint)
    (contourO : GrayImage → List Contour)
    (gray_image : GrayImage) (dpi : ℚ) : List CheckboxRecord :=
  let points_per_pixel : ℚ := 72 / dpi
  let template_size : Nat := 20
  let fromTemplate : List CheckboxRecord :=
    ((matchO gray_image).filter (fun p => decide ((6 : ℚ) / 10 ≤ p.score))).map
      fun p =>
        { element_type := "checkbox"
          detection_method := "template_matching"
          x := round2 ((p.x : ℚ) * points_per_pixel)
          y := round2 ((p.y : ℚ) * points_per_pixel)
          width := round2 ((template_size : ℚ) * points_per_pixel)
          height := round2 ((template_size : ℚ) * points_per_pixel)
          confidence := some p.score
          aspect_ratio := none
          extent := none
          area := none
          interior_brightness := none }
  let fromContours : List CheckboxRecord :=
    (contourO gray_image).filterMap fun c =>
      if c.approxCorners = 4 then
        let aspect_ratio : ℚ := if c.h ≠ 0 then (c.w : ℚ) / (c.h : ℚ) else 0
        let extent : ℚ :=
          if c.w * c.h ≠ 0 then c.area / ((c.w : ℚ) * (c.h : ℚ)) else 0
        if 15 ≤ c.w ∧ c.w ≤ 35 ∧ 15 ≤ c.h ∧ c.h ≤ 35 ∧
            (8 : ℚ) / 10 ≤ aspect_ratio ∧ aspect_ratio ≤ (12 : ℚ) / 10 ∧
            (7 : ℚ) / 10 ≤ extent ∧ extent ≤ 1 ∧
            (200 : ℚ) ≤ c.area ∧ c.area ≤ 1000 then
          let stats := roiStats gray_image c.x c.y c.w c.h
          if stats.1 ≠ 0 ∧ (200 : ℚ) < stats.2 then
            some
              { element_type := "checkbox"
                detection_method := "contour_analysis"
                x := round2 ((c.x : ℚ) * points_per_pixel)
                y := round2 ((c.y : ℚ) * points_per_pixel)
                width := round2 ((c.w : ℚ) * points_per_pixel)
                height := round2 ((c.h : ℚ) * points_per_pixel)
                confidence := none
                aspect_ratio := some (round2 aspect_ratio)
                extent := some (round2 extent)
                area := some (round2 (c.area * points_per_pixel ^ 2))
                interior_brightness := some (round1 stats.2) }
          else none
        else none
      else none
  removeDuplicateCheckboxes (fromTemplate ++ fromContours)

/-- Grid cell side used by `detect_background_colors`
(visualParser.py line 150). -/
def gridSize : Nat := 100

/-- Python `range(0, dim - grid_size, grid_size)`: the row and column
starts of the sampling loops (visualParser.py lines 157-158).  When
`dim <= grid_size` the Python stop value is nonpositive and the range is
empty. -/
def gridStarts (dim : Nat) : List Nat :=
  if dim ≤ gridSize then []
  else (List.range ((dim - gridSize + (gridSize - 1)) / gridSize)).map
    (fun k => k * gridSize)

/-- Channel-wise sum of the BGR values over the 100 by 100 region with
top-left corner `(x, y)`. -/
def regionSum (img : ColorImage) (y x : Nat) : ℚ × ℚ × ℚ :=
  (List.range gridSize).foldl
    (fun acc dy =>
      (List.range gridSize).foldl
        (fun acc2 dx =>
          let c := img.pixel (y + dy) (x + dx)
          (acc2.1 + (c.1 : ℚ), acc2.2.1 + (c.2.1 : ℚ), acc2.2.2 + (c.2.2 : ℚ)))
        acc)
    (0, 0, 0)

/-- The per-region average color
`np.mean(region.reshape(-1, 3), axis=0)` (visualParser.py line 162). -/
def regionMean (img : ColorImage) (y x : Nat) : ℚ × ℚ × ℚ :=
  let s := regionSum img y x
  (s.1 / ((gridSize * gridSize : Nat) : ℚ),
   s.2.1 / ((gridSize * gridSize : Nat) : ℚ),
   s.2.2 / ((gridSize * gridSize : Nat) : ℚ))

/-- Mean of the three channel values, `np.mean(avg_color)`. -/
def channelMean (c : ℚ × ℚ × ℚ) : ℚ := (c.1 + c.2.1 + c.2.2) / 3

/-- Population variance of the three channel values; the source condition
`np.std(avg_color) > 10` is equivalent to the variance exceeding 100,
which avoids the irrational square root. -/
def channelVariance (c : ℚ × ℚ × ℚ) : ℚ :=
  let m := channelMean c
  ((c.1 - m) ^ 2 + (c.2.1 - m) ^ 2 + (c.2.2 - m) ^ 2) / 3

/-- A sampled grid region `(x, y, grid_size, grid_size)`
(visualParser.py line 167). -/
structure Region where
  x : Nat
  y : Nat
  w : Nat
  h : Nat

/-- The sampling loops of `detect_background_colors` (visualParser.py
lines 157-167): every grid cell whose average color is not near white
(`mean < 230` and `std > 10`), in loop order.  The `region.size > 0`
guard of line 160 always holds because the loop bounds keep the full grid
cell inside the image. -/
def sampleRegions (img : ColorImage) : List ((ℚ × ℚ × ℚ) × Region) :=
  (gridStarts img.height).flatMap fun y =>
    (gridStarts img.width).filterMap fun x =>
      let avg := regionMean img y x
      if channelMean avg < 230 ∧ channelVariance avg > 100 then
        some (avg, ⟨x, y, gridSize, gridSize⟩)
      else none

/-- A background-color record as built by `detect_background_colors`
(visualParser.py lines 193-207). -/
structure BgRecord where
  element_type : String
  x : ℚ
  y : ℚ
  width : ℚ
  height : ℚ
  rgb : List ℤ
  hex : String
  region_count : Nat

/-- Python `format(i, "02x")`: lowercase hexadecimal, zero padded to
width 2 (the sign occupying one width unit for negative inputs). -/
def pyFormat02x (i : ℤ) : String :=
  if i < 0 then
    "-" ++ String.mk (List.replicate (1 - (Nat.toDigits 16 i.natAbs).length) (Char.ofNat 48) ++ Nat.toDigits 16 i.natAbs)
  else
    String.mk (List.replicate (2 - (Nat.toDigits 16 i.toNat).length) (Char.ofNat 48) ++ Nat.toDigits 16 i.toNat)

/-- Minimum of a list of naturals (used for the bounding-box folds over a
nonempty cluster position list; the empty case is never reached). -/
def listMinNat : List Nat → Nat
  | [] => 0
  | n :: ns => ns.foldl min n

/-- Maximum of a list of naturals. -/
def listMaxNat : List Nat → Nat
  | [] => 0
  | n :: ns => ns.foldl max n

/-- The record built for one color cluster (visualParser.py lines
185-207).  `center` is the cluster center in BGR channel order. -/
def mkBgRecord (dpi : ℚ) (cluster_positions : List Region)
    (center : ℚ × ℚ × ℚ) : BgRecord :=
  let points_per_pixel : ℚ := 72 / dpi
  let min_x := listMinNat (cluster_positions.map Region.x)
  let min_y := listMinNat (cluster_positions.map Region.y)
  let max_x := listMaxNat (cluster_positions.map fun p => p.x + p.w)
  let max_y := listMaxNat (cluster_positions.map fun p => p.y + p.h)
  let r := pyInt center.2.2
  let g := pyInt center.2.1
  let b := pyInt center.1
  { element_type := "background_color"
    x := round2 ((min_x : ℚ) * points_per_pixel)
    y := round2 ((min_y : ℚ) * points_per_pixel)
    width := round2 (((max_x - min_x : Nat) : ℚ) * points_per_pixel)
    height := round2 (((max_y - min_y : Nat) : ℚ) * points_per_pixel)
    rgb := [r, g, b]
    hex := "#" ++ pyFormat02x r ++ pyFormat02x g ++ pyFormat02x b
    region_count := cluster_positions.length }

/-- Oracle for `sklearn.cluster.KMeans(...).fit_predict`: given the
cluster count and the data it returns per-point labels and per-cluster
centers, or raises (modelled by `Except.error`). -/
def KMeansOracle : Type :=
  Nat → List (ℚ × ℚ × ℚ) → Except String ((Nat → Nat) × (Nat → ℚ × ℚ × ℚ))

/-- The cluster count passed to KMeans,
`n_clusters = min(5, len(all_colors))` (visualParser.py line 174). -/
def nClustersFor (numColors : Nat) : Nat := min 5 numColors

/-- Embedding of `detect_background_colors` (visualParser.py lines
137-211).  A clustering failure is swallowed by the bare `except: pass`
of lines 208-209, returning the (still empty) record list. -/
def detect_background_colors (kmO : KMeansOracle) (img : ColorImage)
    (dpi : ℚ) : List BgRecord :=
  let samples := sampleRegions img
  let all_colors := samples.map Prod.fst
  let positions := samples.map Prod.snd
  if all_colors.length < 2 then []
  else
    let n_clusters := nClustersFor all_colors.length
    match kmO n_clusters all_colors with
    | .error _ => []
    | .ok (labels, centers) =>
      (List.range n_clusters).filterMap fun cluster_id =>
        let cluster_positions :=
          (positions.enum.filter fun p => labels p.1 = cluster_id).map Prod.snd
        if 2 < cluster_positions.length then
          some (mkBgRecord dpi cluster_positions (centers cluster_id))
        else none

/-- One item of a PyMuPDF drawing: a line, a rectangle, or any other
item kind (curves etc., which `extract_pdf_elements` ignores). -/
inductive DrawItem where
  | l (x1 y1 x2 y2 : ℚ)
  | re (x y w h : ℚ)
  | other

/-- One drawing as returned by `page.get_drawings()`. -/
structure PyDrawing where
  items : List DrawItem

/-- One shape record built by `extract_pdf_elements`
(visualParser.py lines 322-343). -/
inductive ShapeRecord where
  | line (x1 y1 x2 y2 : ℚ)
  | rect (x y w h : ℚ)

/-- Return value of `extract_pdf_elements`. -/
structure PdfElements where
  drawings : List PyDrawing
  shapes : List ShapeRecord

/-- Embedding of `extract_pdf_elements` (visualParser.py lines 311-348),
given the `page.get_drawings()` library output. -/
def extract_pdf_elements (drawings : List PyDrawing) : PdfElements :=
  { drawings := drawings
    shapes := drawings.flatMap fun d =>
      d.items.filterMap fun item =>
        match item with
        | .l x1 y1 x2 y2 =>
          some (.line (round2 x1) (round2 y1) (round2 x2) (round2 y2))
        | .re x y w h =>
          some (.rect (round2 x) (round2 y) (round2 w) (round2 h))
        | .other => none }

/-- A PyMuPDF document handle; `numPages` is `len(doc)`. -/
structure PdfDoc where
  numPages : Nat

/-- The result dictionary of `detect_lines_and_colors`.  The
`pdf_drawings` and `pdf_shapes` keys are only present on some paths, so
they are `Option`s; `none` models an absent key. -/
structure Results where
  lines : List LineRecord
  background_colors : List BgRecord
  checkboxes : List CheckboxRecord
  pdf_drawings : Option (List PyDrawing)
  pdf_shapes : Option (List ShapeRecord)

/-- Embedding of `detect_lines_and_colors` (visualParser.py lines 13-58).
Library raise points are oracles in `Except`: `convertO` is
`convert_from_path`, `fitzO` is `fitz.open`, `getDrawingsO` is
`page.get_drawings()` inside `extract_pdf_elements`.  The returned `Bool`
records whether a fitz document handle is still open when the function
returns.  The inner `try/except` of lines 43-54 is embedded faithfully:
an error from `fitzO` or `getDrawingsO` is caught and the function still
returns `.ok`; an error from `getDrawingsO` skips `doc.close()`. -/
noncomputable def detect_lines_and_colors
    (pymupdfAvailable : Bool)
    (convertO : Except String (List ColorImage))
    (houghO : GrayImage → Option (List Segment))
    (matchO : GrayImage → List MatchPoint)
    (contourO : GrayImage → List Contour)
    (kmO : KMeansOracle)
    (fitzO : Except String PdfDoc)
    (getDrawingsO : Except String (List PyDrawing))
    (page_num : Nat) (dpi : ℚ) :
    Except String (Results × Bool) :=
  match convertO with
  | .error e => .error e
  | .ok pages =>
    match pages with
    | [] =>
      .ok ({ lines := [], background_colors := [], checkboxes := [],
             pdf_drawings := none, pdf_shapes := none }, false)
    | pg :: _ =>
      let gray := grayOf pg
      let base : Results :=
        { lines := detect_lines houghO gray dpi
          background_colors := detect_background_colors kmO pg dpi
          checkboxes := detect_checkboxes matchO contourO gray dpi
          pdf_drawings := none
          pdf_shapes := none }
      if pymupdfAvailable then
        match fitzO with
        | .error _ => .ok (base, false)
        | .ok doc =>
          if page_num < doc.numPages then
            match getDrawingsO with
            | .error _ => .ok (base, true)
            | .ok drawings =>
              let pe := extract_pdf_elements drawings
              .ok ({ base with pdf_drawings := some pe.drawings,
                               pdf_shapes := some pe.shapes }, false)
          else .ok (base, false)
      else
        .ok ({ base with pdf_drawings := some [], pdf_shapes := some [] }, false)

end VisualParser

namespace TextParser

/-- A pdfplumber word record; the script treats these as opaque values
produced by `page.extract_words(extra_attrs=["size"])` and serializes
them unchanged, so only a representative payload is modelled. -/
structure Word where
  text : String
  size : ℚ

/-- A pdfplumber document handle; `numPages` is `len(pdf.pages)`. -/
structure PdfHandle where
  numPages : Nat

/-- Key `f"page_{i+1}"` for the output dictionary
(textParser.py line 10). -/
def pageKey (i : Nat) : String := "page_" ++ Nat.repr i

/-- One iteration of the extraction loop of textParser.py lines 7-10: a
previous exception propagates untouched, otherwise the words of page `i`
are extracted and appended under the key `page_(i+1)`. -/
def collectStep (extractO : Nat → Except String (List Word))
    (acc : Except String (List (String × List Word))) (i : Nat) :
    Except String (List (String × List Word)) :=
  match acc with
  | .error e => .error e
  | .ok output =>
    match extractO i with
    | .error e => .error e
    | .ok words => .ok (output ++ [(pageKey (i + 1), words)])

/-- The extraction loop of textParser.py lines 7-10: extract the words of
each page in order, stopping at the first exception, which propagates. -/
def collectPages (extractO : Nat → Except String (List Word)) (n : Nat) :
    Except String (List (String × List Word)) :=
  (List.range n).foldl (collectStep extractO) (.ok [])

/-- Embedding of the whole textParser.py script.  `openO` is
`pdfplumber.open`, `extractO` the per-page `extract_words` call, `dumpO`
the `open(..., "w")` plus `json.dump` step (modelled atomically: on error
nothing is written).  The second component is the content of the output
file on return: `none` when the script raised before committing it. -/
def run (openO : Except String PdfHandle)
    (extractO : Nat → Except String (List Word))
    (dumpO : List (String × List Word) → Except String String) :
    Except String Unit × Option String :=
  match openO with
  | .error e => (.error e, none)
  | .ok pdf =>
    match collectPages extractO pdf.numPages with
    | .error e => (.error e, none)
    | .ok output =>
      match dumpO output with
      | .error e => (.error e, none)
      | .ok contents => (.ok (), some contents)

end TextParser

namespace VisualParser

lemma round2_close (q : ℚ) : |round2 q - q| ≤ 1 / 200 := by
  have h := abs_sub_round (q * 100)
  have heq : round2 q - q = (((round (q * 100) : ℤ) : ℚ) - q * 100) / 100 := by
    rw [round2]; ring
  rw [heq, abs_div, abs_of_pos (show (0 : ℚ) < 100 by norm_num)]
  rw [abs_sub_comm] at h
  linarith

lemma pyAtan2_zero_of_pos {x : ℝ} (hx : 0 < x) : pyAtan2 0 x = 0 := by
  unfold pyAtan2
  rw [if_pos hx, zero_div, Real.arctan_zero]

lemma pyAtan2_zero_of_neg {x : ℝ} (hx : x < 0) : pyAtan2 0 x = Real.pi := by
  unfold pyAtan2
  rw [if_neg (by linarith : ¬ (0 : ℝ) < x), if_pos ⟨hx, le_refl (0 : ℝ)⟩,
    zero_div, Real.arctan_zero, zero_add]

lemma classifyOrientation_zero : classifyOrientation 0 = "horizontal" := by
  unfold classifyOrientation
  rw [if_pos (Or.inl (by norm_num : |(0 : ℝ)| < 10))]

lemma classifyOrientation_180 : classifyOrientation 180 = "horizontal" := by
  unfold classifyOrientation
  rw [if_pos (Or.inr (by norm_num : |(180 : ℝ) - 180| < 10))]

lemma mkLineRecord_orientation_horizontal (gray : GrayImage) (dpi : ℚ)
    (s : Segment) (hy : s.y1 = s.y2) (hx : s.x1 ≠ s.x2) :
    (mkLineRecord gray dpi s).orientation = "horizontal" := by
  have hdy : ((((s.y2 : ℤ) - (s.y1 : ℤ)) : ℤ) : ℝ) = 0 := by
    rw [hy]; push_cast; ring
  show classifyOrientation
      (pyAtan2 ((((s.y2 : ℤ) - (s.y1 : ℤ)) : ℤ) : ℝ)
        ((((s.x2 : ℤ) - (s.x1 : ℤ)) : ℤ) : ℝ) * 180 / Real.pi) = "horizontal"
  rw [hdy]
  rcases Nat.lt_or_ge s.x1 s.x2 with hlt | hge
  · have hdx : (0 : ℝ) < (((s.x2 : ℤ) - (s.x1 : ℤ) : ℤ) : ℝ) := by
      push_cast
      have : (s.x1 : ℝ) < (s.x2 : ℝ) := by exact_mod_cast hlt
      linarith
    rw [pyAtan2_zero_of_pos hdx, zero_mul, zero_div, classifyOrientation_zero]
  · have hlt2 : s.x2 < s.x1 := lt_of_le_of_ne hge (fun h => hx h.symm)
    have hdx : (((s.x2 : ℤ) - (s.x1 : ℤ) : ℤ) : ℝ) < 0 := by
      push_cast
      have : (s.x2 : ℝ) < (s.x1 : ℝ) := by exact_mod_cast hlt2
      linarith
    rw [pyAtan2_zero_of_neg hdx]
    have hpi : Real.pi * 180 / Real.pi = 180 := by
      rw [mul_comm, mul_div_assoc, div_self Real.pi_ne_zero, mul_one]
    rw [hpi, classifyOrientation_180]

/-- C1: for every line record emitted by `detect_lines` from an exactly
horizontal Hough segment (`y1 = y2`, `x1 != x2`), the orientation field is
"horizontal" and each position coordinate equals the pixel coordinate
scaled by 72/dpi and rounded to 2 decimal places, hence lies within
1/200 of the exact point value. -/
theorem detect_lines_horizontal_segment
    (houghO : GrayImage → Option (List Segment)) (gray : GrayImage)
    (dpi : ℚ) (segs : List Segment) (s : Segment)
    (hh : houghO gray = some segs) (hmem : s ∈ segs)
    (hy : s.y1 = s.y2) (hx : s.x1 ≠ s.x2) :
    mkLineRecord gray dpi s ∈ detect_lines houghO gray dpi ∧
    (mkLineRecord gray dpi s).orientation = "horizontal" ∧
    (mkLineRecord gray dpi s).x1 = round2 ((s.x1 : ℚ) * (72 / dpi)) ∧
    (mkLineRecord gray dpi s).y1 = round2 ((s.y1 : ℚ) * (72 / dpi)) ∧
    (mkLineRecord gray dpi s).x2 = round2 ((s.x2 : ℚ) * (72 / dpi)) ∧
    (mkLineRecord gray dpi s).y2 = round2 ((s.y2 : ℚ) * (72 / dpi)) ∧
    |(mkLineRecord gray dpi s).x1 - (s.x1 : ℚ) * (72 / dpi)| ≤ 1 / 200 ∧
    |(mkLineRecord gray dpi s).y1 - (s.y1 : ℚ) * (72 / dpi)| ≤ 1 / 200 ∧
    |(mkLineRecord gray dpi s).x2 - (s.x2 : ℚ) * (72 / dpi)| ≤ 1 / 200 ∧
    |(mkLineRecord gray dpi s).y2 - (s.y2 : ℚ) * (72 / dpi)| ≤ 1 / 200 := by
  refine ⟨?_, mkLineRecord_orientation_horizontal gray dpi s hy hx,
    rfl, rfl, rfl, rfl, ?_, ?_, ?_, ?_⟩
  · unfold detect_lines
    rw [hh]
    exact List.mem_map_of_mem _ hmem
  · exact round2_close _
  · exact round2_close _
  · exact round2_close _
  · exact round2_close _

/-- Test fixtures for the concrete witnesses. -/
def testGray : GrayImage := { height := 20, width := 20, pixel := fun _ _ => 0 }

/-- A horizontal test segment. -/
def testSeg : Segment := { x1 := 0, y1 := 5, x2 := 10, y2 := 5 }

/-- A Hough oracle returning exactly the one test segment. -/
def testHough : GrayImage → Option (List Segment) := fun _ => some [testSeg]

/-- Witness for C1, instantiated on a concrete horizontal segment. -/
theorem detect_lines_horizontal_segment_witness :
    mkLineRecord testGray 150 testSeg ∈ detect_lines testHough testGray 150 ∧
    (mkLineRecord testGray 150 testSeg).orientation = "horizontal" ∧
    (mkLineRecord testGray 150 testSeg).x1 =
      round2 ((testSeg.x1 : ℚ) * (72 / 150)) ∧
    (mkLineRecord testGray 150 testSeg).y1 =
      round2 ((testSeg.y1 : ℚ) * (72 / 150)) ∧
    (mkLineRecord testGray 150 testSeg).x2 =
      round2 ((testSeg.x2 : ℚ) * (72 / 150)) ∧
    (mkLineRecord testGray 150 testSeg).y2 =
      round2 ((testSeg.y2 : ℚ) * (72 / 150)) ∧
    |(mkLineRecord testGray 150 testSeg).x1 - (testSeg.x1 : ℚ) * (72 / 150)| ≤ 1 / 200 ∧
    |(mkLineRecord testGray 150 testSeg).y1 - (testSeg.y1 : ℚ) * (72 / 150)| ≤ 1 / 200 ∧
    |(mkLineRecord testGray 150 testSeg).x2 - (testSeg.x2 : ℚ) * (72 / 150)| ≤ 1 / 200 ∧
    |(mkLineRecord testGray 150 testSeg).y2 - (testSeg.y2 : ℚ) * (72 / 150)| ≤ 1 / 200 :=
  detect_lines_horizontal_segment testHough testGray 150 [testSeg] testSeg
    rfl (List.mem_singleton.mpr rfl) rfl (by decide)

end VisualParser

namespace VisualParser

lemma classifyOrientation_mem (a : ℝ) :
    classifyOrientation a = "horizontal" ∨ classifyOrientation a = "vertical" ∨
      classifyOrientation a = "diagonal" := by
  unfold classifyOrientation
  split_ifs <;> simp

lemma detect_line_style_dotted_iff (gray : GrayImage) (x1 y1 x2 y2 : Nat) :
    detect_line_style gray x1 y1 x2 y2 = "dotted" ↔
      sampleBlackCount gray x1 y1 x2 y2 < 14 := by
  have key : ((sampleBlackCount gray x1 y1 x2 y2 : ℚ) / 20 < 7 / 10) ↔
      sampleBlackCount gray x1 y1 x2 y2 < 14 := by
    rw [div_lt_iff₀ (by norm_num : (0 : ℚ) < 20)]
    norm_num
  unfold detect_line_style
  split_ifs with h
  · exact iff_of_true rfl (key.mp h)
  · exact iff_of_false (by decide) (fun hc => h (key.mpr hc))

lemma detect_line_style_mem (gray : GrayImage) (x1 y1 x2 y2 : Nat) :
    detect_line_style gray x1 y1 x2 y2 = "solid" ∨
      detect_line_style gray x1 y1 x2 y2 = "dotted" := by
  unfold detect_line_style
  split_ifs <;> simp

/-- C2: every line record produced by `detect_lines` has an orientation
field among "horizontal", "vertical", "diagonal", determined solely by
the angle of the segment, and a line-style field among "solid", "dotted",
where "dotted" holds exactly when fewer than 14 of the 20 evenly spaced
samples (70 percent) are in-bounds dark pixels (gray value below 128). -/
theorem detect_lines_record_classification
    (houghO : GrayImage → Option (List Segment)) (gray : GrayImage)
    (dpi : ℚ) (segs : List Segment) (s : Segment)
    (hh : houghO gray = some segs) (hmem : s ∈ segs) :
    mkLineRecord gray dpi s ∈ detect_lines houghO gray dpi ∧
    ((mkLineRecord gray dpi s).orientation = "horizontal" ∨
     (mkLineRecord gray dpi s).orientation = "vertical" ∨
     (mkLineRecord gray dpi s).orientation = "diagonal") ∧
    (mkLineRecord gray dpi s).orientation =
      classifyOrientation
        (pyAtan2 ((((s.y2 : ℤ) - (s.y1 : ℤ)) : ℤ) : ℝ)
          ((((s.x2 : ℤ) - (s.x1 : ℤ)) : ℤ) : ℝ) * 180 / Real.pi) ∧
    ((mkLineRecord gray dpi s).line_style = "solid" ∨
     (mkLineRecord gray dpi s).line_style = "dotted") ∧
    ((mkLineRecord gray dpi s).line_style = "dotted" ↔
      sampleBlackCount gray s.x1 s.y1 s.x2 s.y2 < 14) := by
  refine ⟨?_, classifyOrientation_mem _, rfl,
    detect_line_style_mem gray s.x1 s.y1 s.x2 s.y2,
    detect_line_style_dotted_iff gray s.x1 s.y1 s.x2 s.y2⟩
  unfold detect_lines
  rw [hh]
  exact List.mem_map_of_mem _ hmem

/-- Witness for C2, instantiated on the concrete test segment. -/
theorem detect_lines_record_classification_witness :
    mkLineRecord testGray 150 testSeg ∈ detect_lines testHough testGray 150 ∧
    ((mkLineRecord testGray 150 testSeg).orientation = "horizontal" ∨
     (mkLineRecord testGray 150 testSeg).orientation = "vertical" ∨
     (mkLineRecord testGray 150 testSeg).orientation = "diagonal") ∧
    (mkLineRecord testGray 150 testSeg).orientation =
      classifyOrientation
        (pyAtan2 ((((testSeg.y2 : ℤ) - (testSeg.y1 : ℤ)) : ℤ) : ℝ)
          ((((testSeg.x2 : ℤ) - (testSeg.x1 : ℤ)) : ℤ) : ℝ) * 180 / Real.pi) ∧
    ((mkLineRecord testGray 150 testSeg).line_style = "solid" ∨
     (mkLineRecord testGray 150 testSeg).line_style = "dotted") ∧
    ((mkLineRecord testGray 150 testSeg).line_style = "dotted" ↔
      sampleBlackCount testGray testSeg.x1 testSeg.y1 testSeg.x2 testSeg.y2 < 14) :=
  detect_lines_record_classification testHough testGray 150 [testSeg] testSeg
    rfl (List.mem_singleton.mpr rfl)

end VisualParser

namespace VisualParser

lemma foldl_dedup_pairwise (l : List CheckboxRecord) :
    ∀ acc : List CheckboxRecord,
      acc.Pairwise (fun a b => ¬(|a.x - b.x| < 10 ∧ |a.y - b.y| < 10)) →
      (l.foldl
        (fun unique cb =>
          if unique.any (fun existing => isDuplicatePos cb existing) then unique
          else unique ++ [cb]) acc).Pairwise
        (fun a b => ¬(|a.x - b.x| < 10 ∧ |a.y - b.y| < 10)) := by
  induction l with
  | nil => intro acc h; exact h
  | cons cb l ih =>
    intro acc h
    rw [List.foldl_cons]
    apply ih
    by_cases hdup : acc.any (fun existing => isDuplicatePos cb existing) = true
    · rw [if_pos hdup]; exact h
    · rw [if_neg hdup]
      rw [List.pairwise_append]
      refine ⟨h, List.pairwise_singleton _ _, ?_⟩
      intro a ha b hb
      rw [List.mem_singleton] at hb
      subst hb
      intro hcontra
      apply hdup
      rw [List.any_eq_true]
      refine ⟨a, ha, ?_⟩
      rw [isDuplicatePos, decide_eq_true_iff]
      exact ⟨by rw [abs_sub_comm]; exact hcontra.1,
             by rw [abs_sub_comm]; exact hcontra.2⟩

lemma removeDuplicateCheckboxes_pairwise (cbs : List CheckboxRecord) :
    (removeDuplicateCheckboxes cbs).Pairwise
      (fun a b => ¬(|a.x - b.x| < 10 ∧ |a.y - b.y| < 10)) :=
  foldl_dedup_pairwise cbs [] (List.Pairwise.nil)

/-- C8: in the list returned by `detect_checkboxes`, no two retained
records sit within the 10-point tolerance of each other in both
coordinates: the deduplication pass establishes a pairwise separation
invariant. -/
theorem detect_checkboxes_no_duplicate_positions
    (matchO : GrayImage → List MatchPoint)
    (contourO : GrayImage → List Contour)
    (gray_image : GrayImage) (dpi : ℚ) :
    (detect_checkboxes matchO contourO gray_image dpi).Pairwise
      (fun a b => ¬(|a.x - b.x| < 10 ∧ |a.y - b.y| < 10)) :=
  removeDuplicateCheckboxes_pairwise _

/-- Witness for C8: the invariant at a concrete oracle instantiation. -/
theorem detect_checkboxes_no_duplicate_positions_witness :
    (detect_checkboxes (fun _ => [⟨0, 0, 1⟩, ⟨5, 5, 1⟩, ⟨100, 100, 1⟩])
        (fun _ => []) testGray 150).Pairwise
      (fun a b => ¬(|a.x - b.x| < 10 ∧ |a.y - b.y| < 10)) :=
  detect_checkboxes_no_duplicate_positions
    (fun _ => [⟨0, 0, 1⟩, ⟨5, 5, 1⟩, ⟨100, 100, 1⟩]) (fun _ => []) testGray 150

/-- C9: when PDF-to-image conversion yields no pages,
`detect_lines_and_colors` returns the dictionary with exactly the three
keys `lines`, `background_colors` and `checkboxes`, each an empty list,
and no `pdf_drawings` or `pdf_shapes` keys (modelled as `none`), with no
document handle left open. -/
theorem detect_lines_and_colors_empty_pages
    (pymupdfAvailable : Bool)
    (houghO : GrayImage → Option (List Segment))
    (matchO : GrayImage → List MatchPoint)
    (contourO : GrayImage → List Contour)
    (kmO : KMeansOracle)
    (fitzO : Except String PdfDoc)
    (getDrawingsO : Except String (List PyDrawing))
    (page_num : Nat) (dpi : ℚ) :
    detect_lines_and_colors pymupdfAvailable (.ok []) houghO matchO contourO
        kmO fitzO getDrawingsO page_num dpi =
      .ok ({ lines := [], background_colors := [], checkboxes := [],
             pdf_drawings := none, pdf_shapes := none }, false) := rfl

/-- C5: the embedded detection pipeline is deterministic: with the same
library oracles (same Hough output, same seeded KMeans, same template and
contour results) and identical inputs, `detect_lines`,
`detect_background_colors` and `detect_checkboxes` produce identical
result records. -/
theorem detection_pipeline_deterministic
    (houghO : GrayImage → Option (List Segment))
    (matchO : GrayImage → List MatchPoint)
    (contourO : GrayImage → List Contour)
    (kmO : KMeansOracle)
    (g1 g2 : GrayImage) (c1 c2 : ColorImage) (d1 d2 : ℚ)
    (hg : g1 = g2) (hc : c1 = c2) (hd : d1 = d2) :
    detect_lines houghO g1 d1 = detect_lines houghO g2 d2 ∧
    detect_background_colors kmO c1 d1 = detect_background_colors kmO c2 d2 ∧
    detect_checkboxes matchO contourO g1 d1 =
      detect_checkboxes matchO contourO g2 d2 := by
  subst hg; subst hc; subst hd
  exact ⟨rfl, rfl, rfl⟩

/-- A small all-white color image used by several concrete
instantiations; its sampling grid is empty because both dimensions are
at most the grid size. -/
def testColor : ColorImage :=
  { height := 20, width := 20, pixel := fun _ _ => (255, 255, 255) }

/-- Witness for C5 at concrete inputs. -/
theorem detection_pipeline_deterministic_witness :
    detect_lines testHough testGray 150 = detect_lines testHough testGray 150 ∧
    detect_background_colors (fun _ _ => .error "unused") testColor 150 =
      detect_background_colors (fun _ _ => .error "unused") testColor 150 ∧
    detect_checkboxes (fun _ => []) (fun _ => []) testGray 150 =
      detect_checkboxes (fun _ => []) (fun _ => []) testGray 150 :=
  detection_pipeline_deterministic testHough (fun _ => []) (fun _ => [])
    (fun _ _ => .error "unused") testGray testGray testColor testColor 150 150
    rfl rfl rfl

end VisualParser

namespace VisualParser

/-- A KMeans oracle that always raises, standing for a clustering
failure caught by the bare `except` of `detect_background_colors`. -/
def kmFail : KMeansOracle := fun _ _ => .error "sklearn failure"

/-- C3 counterexample: an exception raised inside the PyMuPDF block of
`detect_lines_and_colors` (here `page.get_drawings()` failing) does not
propagate to the top-level handler: the function returns normally with a
partial result that lacks the `pdf_drawings` and `pdf_shapes` keys. -/
theorem dlac_inner_catch_counterexample :
    detect_lines_and_colors true (.ok [testColor]) (fun _ => none)
        (fun _ => []) (fun _ => []) kmFail (.ok ⟨1⟩)
        (.error "pymupdf failure") 0 150 =
      .ok ({ lines := [], background_colors := [], checkboxes := [],
             pdf_drawings := none, pdf_shapes := none }, true) := rfl

/-- C3 amended: a `convert_from_path` failure does propagate to the
top-level handler, but two inner handlers exist and recover with partial
results: the `try/except` of lines 43-54 catches any exception of the
PyMuPDF block (the result then lacks the `pdf_drawings` and `pdf_shapes`
keys), and the bare `except: pass` of lines 208-209 catches clustering
failures inside `detect_background_colors` (which then returns no color
records). -/
theorem dlac_exception_structure
    (houghO : GrayImage → Option (List Segment))
    (matchO : GrayImage → List MatchPoint)
    (contourO : GrayImage → List Contour)
    (kmO : KMeansOracle)
    (fitzO : Except String PdfDoc)
    (getDrawingsO : Except String (List PyDrawing))
    (page_num : Nat) (dpi : ℚ) (e em : String)
    (pg : ColorImage) (rest : List ColorImage) (doc : PdfDoc)
    (img : ColorImage)
    (hpage : page_num < doc.numPages)
    (hkm : kmO (nClustersFor (((sampleRegions img).map Prod.fst).length))
        ((sampleRegions img).map Prod.fst) = .error em) :
    detect_lines_and_colors true (.error e) houghO matchO contourO kmO fitzO
        getDrawingsO page_num dpi = .error e ∧
    detect_lines_and_colors true (.ok (pg :: rest)) houghO matchO contourO kmO
        (.ok doc) (.error em) page_num dpi =
      .ok ({ lines := detect_lines houghO (grayOf pg) dpi,
             background_colors := detect_background_colors kmO pg dpi,
             checkboxes := detect_checkboxes matchO contourO (grayOf pg) dpi,
             pdf_drawings := none, pdf_shapes := none }, true) ∧
    detect_background_colors kmO img dpi = [] := by
  refine ⟨rfl, ?_, ?_⟩
  · simp [detect_lines_and_colors, hpage]
  · simp only [detect_background_colors]
    split_ifs with hl
    · rfl
    · rw [hkm]

/-- Witness for the amended C3, at concrete oracles. -/
theorem dlac_exception_structure_witness :
    detect_lines_and_colors true (.error "conversion failure") testHough
        (fun _ => []) (fun _ => []) kmFail (.ok ⟨1⟩)
        (.error "sklearn failure") 0 150 = .error "conversion failure" ∧
    detect_lines_and_colors true (.ok (testColor :: [])) testHough
        (fun _ => []) (fun _ => []) kmFail (.ok ⟨1⟩)
        (.error "sklearn failure") 0 150 =
      .ok ({ lines := detect_lines testHough (grayOf testColor) 150,
             background_colors := detect_background_colors kmFail testColor 150,
             checkboxes :=
               detect_checkboxes (fun _ => []) (fun _ => []) (grayOf testColor) 150,
             pdf_drawings := none, pdf_shapes := none }, true) ∧
    detect_background_colors kmFail testColor 150 = [] :=
  dlac_exception_structure testHough (fun _ => []) (fun _ => []) kmFail
    (.ok ⟨1⟩) (.error "sklearn failure") 0 150 "conversion failure"
    "sklearn failure" testColor [] ⟨1⟩ testColor (by decide) rfl

/-- C4 counterexample: the cluster count handed to KMeans,
`n_clusters = min(5, len(all_colors))`, is not one constant independent
of how many sampled regions survive the near-white filter: with 2
survivors KMeans is invoked with 2 clusters, with 5 survivors with 5. -/
theorem nClustersFor_not_constant : nClustersFor 2 ≠ nClustersFor 5 := by
  decide

/-- C4 amended: `detect_background_colors` consults the KMeans oracle
only at the cluster count `min(5, number of surviving regions)` (and at
the surviving colors themselves): two oracles agreeing there produce the
same output, so the cluster count is capped at 5 but depends on the
survivor count below the cap. -/
theorem detect_background_colors_cluster_count
    (img : ColorImage) (dpi : ℚ) (kmO kmO2 : KMeansOracle)
    (h : kmO (nClustersFor (((sampleRegions img).map Prod.fst).length))
          ((sampleRegions img).map Prod.fst) =
        kmO2 (nClustersFor (((sampleRegions img).map Prod.fst).length))
          ((sampleRegions img).map Prod.fst)) :
    detect_background_colors kmO img dpi =
      detect_background_colors kmO2 img dpi := by
  simp only [detect_background_colors]
  split_ifs with hl
  · rfl
  · rw [h]

/-- Witness for the amended C4. -/
theorem detect_background_colors_cluster_count_witness :
    detect_background_colors kmFail testColor 150 =
      detect_background_colors kmFail testColor 150 :=
  detect_background_colors_cluster_count testColor 150 kmFail kmFail rfl

/-- C7 counterexample: on the path where `page.get_drawings()` raises
after `fitz.open` succeeded, `detect_lines_and_colors` returns with the
document handle still open (second component `true`): the `except` block
skips the `doc.close()` call. -/
theorem dlac_doc_left_open_counterexample :
    (detect_lines_and_colors true (.ok [testColor]) (fun _ => none)
        (fun _ => []) (fun _ => []) kmFail (.ok ⟨3⟩)
        (.error "get drawings failure") 0 72).map Prod.snd = .ok true := rfl

/-- C7 amended: the fitz document handle is closed before
`detect_lines_and_colors` returns on the paths where no exception is
raised after `fitz.open` (extraction succeeded, `fitz.open` itself
failed, or the page index is out of range), but on the path where
`page.get_drawings()` raises after a successful open the handle is left
open. -/
theorem dlac_doc_handle_closure
    (houghO : GrayImage → Option (List Segment))
    (matchO : GrayImage → List MatchPoint)
    (contourO : GrayImage → List Contour)
    (kmO : KMeansOracle)
    (pg : ColorImage) (rest : List ColorImage)
    (doc doc2 : PdfDoc) (page_num page_num2 : Nat) (dpi : ℚ)
    (drawings : List PyDrawing) (e em : String)
    (hpage : page_num < doc.numPages)
    (hout : ¬ page_num2 < doc2.numPages) :
    ((detect_lines_and_colors true (.ok (pg :: rest)) houghO matchO contourO
        kmO (.ok doc) (.ok drawings) page_num dpi).map Prod.snd = .ok false) ∧
    ((detect_lines_and_colors true (.ok (pg :: rest)) houghO matchO contourO
        kmO (.error e) (.ok drawings) page_num dpi).map Prod.snd = .ok false) ∧
    ((detect_lines_and_colors true (.ok (pg :: rest)) houghO matchO contourO
        kmO (.ok doc2) (.ok drawings) page_num2 dpi).map Prod.snd = .ok false) ∧
    ((detect_lines_and_colors true (.ok (pg :: rest)) houghO matchO contourO
        kmO (.ok doc) (.error em) page_num dpi).map Prod.snd = .ok true) := by
  refine ⟨?_, rfl, ?_, ?_⟩
  · simp [detect_lines_and_colors, hpage, Except.map]
  · simp [detect_lines_and_colors, hout, Except.map]
  · simp [detect_lines_and_colors, hpage, Except.map]

/-- Witness for the amended C7. -/
theorem dlac_doc_handle_closure_witness :
    ((detect_lines_and_colors true (.ok (testColor :: [])) testHough
        (fun _ => []) (fun _ => []) kmFail (.ok ⟨3⟩) (.ok []) 0 150).map
        Prod.snd = .ok false) ∧
    ((detect_lines_and_colors true (.ok (testColor :: [])) testHough
        (fun _ => []) (fun _ => []) kmFail (.error "open failure") (.ok [])
        0 150).map Prod.snd = .ok false) ∧
    ((detect_lines_and_colors true (.ok (testColor :: [])) testHough
        (fun _ => []) (fun _ => []) kmFail (.ok ⟨1⟩) (.ok []) 7 150).map
        Prod.snd = .ok false) ∧
    ((detect_lines_and_colors true (.ok (testColor :: [])) testHough
        (fun _ => []) (fun _ => []) kmFail (.ok ⟨3⟩)
        (.error "get drawings failure") 0 150).map Prod.snd = .ok true) :=
  dlac_doc_handle_closure testHough (fun _ => []) (fun _ => []) kmFail
    testColor [] ⟨3⟩ ⟨1⟩ 0 7 150 [] "open failure" "get drawings failure"
    (by decide) (by decide)

end VisualParser

namespace TextParser

lemma collectPages_succ (extractO : Nat → Except String (List Word))
    (m : Nat) :
    collectPages extractO (m + 1) =
      collectStep extractO (collectPages extractO m) m := by
  rw [collectPages, collectPages, List.range_succ, List.foldl_append,
    List.foldl_cons, List.foldl_nil]

lemma collectPages_ok_below (extractO : Nat → Except String (List Word)) :
    ∀ i : Nat, (∀ j, j < i → ∃ ws, extractO j = .ok ws) →
      ∃ out, collectPages extractO i = .ok out := by
  intro i
  induction i with
  | zero => intro _; exact ⟨[], rfl⟩
  | succ m ih =>
    intro hok
    obtain ⟨out, hout⟩ := ih (fun j hj => hok j (Nat.lt_succ_of_lt hj))
    obtain ⟨ws, hws⟩ := hok m (Nat.lt_succ_self m)
    refine ⟨out ++ [(pageKey (m + 1), ws)], ?_⟩
    rw [collectPages_succ, hout]
    simp only [collectStep, hws]

lemma collectPages_error_at (extractO : Nat → Except String (List Word))
    (n i : Nat) (e : String) (hi : i < n)
    (hok : ∀ j, j < i → ∃ ws, extractO j = .ok ws)
    (he : extractO i = .error e) :
    collectPages extractO n = .error e := by
  induction n with
  | zero => exact absurd hi (Nat.not_lt_zero i)
  | succ m ih =>
    rw [collectPages_succ]
    rcases Nat.lt_succ_iff_lt_or_eq.mp hi with hlt | heq
    · rw [ih hlt]
      rfl
    · subst heq
      obtain ⟨out, hout⟩ := collectPages_ok_below extractO i hok
      rw [hout]
      simp only [collectStep, he]

/-- C6: the text-parsing script has no error handling: an exception
raised while opening the PDF, extracting the words of any page (all
previous pages having succeeded), or writing the JSON output propagates
uncaught out of the script, and output content is committed exactly when
the whole run succeeded (in the error case nothing is written). -/
theorem textParser_no_error_handling
    (openO : Except String PdfHandle)
    (extractO : Nat → Except String (List Word))
    (dumpO : List (String × List Word) → Except String String) :
    ((run openO extractO dumpO).2.isSome ↔
      (run openO extractO dumpO).1 = .ok ()) ∧
    (∀ e, openO = .error e → run openO extractO dumpO = (.error e, none)) ∧
    (∀ pdf i e, openO = .ok pdf → i < pdf.numPages →
      (∀ j, j < i → ∃ ws, extractO j = .ok ws) → extractO i = .error e →
      run openO extractO dumpO = (.error e, none)) ∧
    (∀ pdf out e, openO = .ok pdf →
      collectPages extractO pdf.numPages = .ok out → dumpO out = .error e →
      run openO extractO dumpO = (.error e, none)) := by
  refine ⟨?_, ?_, ?_, ?_⟩
  · simp only [run]
    cases openO with
    | error e => simp
    | ok pdf =>
      rcases hcp : collectPages extractO pdf.numPages with e | out
      · simp [hcp]
      · rcases hd : dumpO out with e | s
        · simp [hcp, hd]
        · simp [hcp, hd]
  · intro e h
    subst h
    rfl
  · intro pdf i e hopen hi hok he
    subst hopen
    simp only [run]
    rw [collectPages_error_at extractO pdf.numPages i e hi hok he]
  · intro pdf out e hopen hcp hd
    subst hopen
    simp only [run]
    simp only [hcp, hd]

/-- An extraction oracle that always raises. -/
def extractFails : Nat → Except String (List Word) :=
  fun _ => .error "extract failure"

/-- Witness for C6: a failing page extraction on a concrete two-page
document propagates out of the run and nothing is written. -/
theorem textParser_no_error_handling_witness :
    run (.ok ⟨2⟩) extractFails (fun _ => .ok "written") =
      (.error "extract failure", none) := by
  have h := (textParser_no_error_handling (.ok ⟨2⟩) extractFails
    (fun _ => .ok "written")).2.2.1
  exact h ⟨2⟩ 0 "extract failure" rfl (by decide)
    (fun j hj => absurd hj (Nat.not_lt_zero j)) rfl

end TextParser

namespace VisualParser

/-- Two-digit lowercase hexadecimal encoding of a byte value, written
from the specification wording ("the lowercase hexadecimal encoding
rrggbb of the three integers"): high nibble then low nibble. -/
def hex2 (n : Nat) : String :=
  String.mk [Nat.digitChar (n / 16), Nat.digitChar (n % 16)]

/-- Specification-side hex color string for an RGB byte triple. -/
def hexRGB (r g b : Nat) : String := "#" ++ hex2 r ++ hex2 g ++ hex2 b

set_option maxRecDepth 4000 in
lemma pyFormat02x_eq_hex2 : ∀ n : Nat, n < 256 → pyFormat02x (n : ℤ) = hex2 n := by
  decide

lemma pyInt_bounds {q : ℚ} (h0 : 0 ≤ q) (h256 : q < 256) :
    (pyInt q).toNat < 256 ∧ ((pyInt q).toNat : ℤ) = pyInt q := by
  rw [pyInt, if_pos h0]
  have hnn : 0 ≤ ⌊q⌋ := Int.floor_nonneg.mpr h0
  have hlt : ⌊q⌋ < 256 := Int.floor_lt.mpr (by exact_mod_cast h256)
  exact ⟨by omega, Int.toNat_of_nonneg hnn⟩

lemma pyFormat02x_pyInt {q : ℚ} (h0 : 0 ≤ q) (h256 : q < 256) :
    pyFormat02x (pyInt q) = hex2 (pyInt q).toNat := by
  obtain ⟨hlt, heq⟩ := pyInt_bounds h0 h256
  rw [← heq]
  exact pyFormat02x_eq_hex2 _ hlt

/-- In-range condition on a KMeans oracle result: every cluster center
channel lies in the 8-bit range [0, 256).  Real KMeans centers are convex
combinations of the sampled pixel means, hence satisfy this. -/
def centersInRange
    (r : Except String ((Nat → Nat) × (Nat → ℚ × ℚ × ℚ))) : Prop :=
  ∀ cid, match r with
  | .error _ => True
  | .ok lc =>
    0 ≤ (lc.2 cid).1 ∧ (lc.2 cid).1 < 256 ∧
    0 ≤ (lc.2 cid).2.1 ∧ (lc.2 cid).2.1 < 256 ∧
    0 ≤ (lc.2 cid).2.2 ∧ (lc.2 cid).2.2 < 256

/-- C10: every record emitted by `detect_background_colors` has
`region_count` at least 3 and a `hex` field that is exactly the lowercase
two-digit-per-channel hexadecimal encoding of the byte triple in its
`rgb` field; and when fewer than 2 sampled regions pass the near-white
filter, no records at all are emitted. -/
theorem detect_background_colors_record_invariants
    (kmO : KMeansOracle) (img : ColorImage) (dpi : ℚ)
    (hc : ∀ n data, centersInRange (kmO n data)) :
    (∀ rec ∈ detect_background_colors kmO img dpi,
      3 ≤ rec.region_count ∧
      ∃ r g b : ℕ, r < 256 ∧ g < 256 ∧ b < 256 ∧
        rec.rgb = [(r : ℤ), (g : ℤ), (b : ℤ)] ∧ rec.hex = hexRGB r g b) ∧
    (((sampleRegions img).map Prod.fst).length < 2 →
      detect_background_colors kmO img dpi = []) := by
  constructor
  · intro rec hrec
    simp only [detect_background_colors] at hrec
    split_ifs at hrec with hl
    · exact absurd hrec (List.not_mem_nil _)
    · rcases hk : kmO (nClustersFor ((sampleRegions img).map Prod.fst).length)
          ((sampleRegions img).map Prod.fst) with e | lc
      · rw [hk] at hrec
        exact absurd hrec (List.not_mem_nil _)
      · rw [hk] at hrec
        obtain ⟨labels, centers⟩ := lc
        rw [List.mem_filterMap] at hrec
        obtain ⟨cid, hcid, hsome⟩ := hrec
        split_ifs at hsome with hlen
        · have hrec2 := Option.some.inj hsome
          subst hrec2
          have hbounds := hc (nClustersFor ((sampleRegions img).map Prod.fst).length)
            ((sampleRegions img).map Prod.fst)
          rw [hk] at hbounds
          simp only [centersInRange] at hbounds
          obtain ⟨hb1, hb2, hg1, hg2, hr1, hr2⟩ := hbounds cid
          refine ⟨hlen, (pyInt (centers cid).2.2).toNat,
            (pyInt (centers cid).2.1).toNat, (pyInt (centers cid).1).toNat,
            (pyInt_bounds hr1 hr2).1, (pyInt_bounds hg1 hg2).1,
            (pyInt_bounds hb1 hb2).1, ?_, ?_⟩
          · show [pyInt (centers cid).2.2, pyInt (centers cid).2.1,
              pyInt (centers cid).1] = _
            rw [(pyInt_bounds hr1 hr2).2, (pyInt_bounds hg1 hg2).2,
              (pyInt_bounds hb1 hb2).2]
          · show "#" ++ pyFormat02x (pyInt (centers cid).2.2) ++
              pyFormat02x (pyInt (centers cid).2.1) ++
              pyFormat02x (pyInt (centers cid).1) = _
            rw [pyFormat02x_pyInt hr1 hr2, pyFormat02x_pyInt hg1 hg2,
              pyFormat02x_pyInt hb1 hb2]
            rfl
  · intro h
    simp only [detect_background_colors]
    rw [if_pos h]

/-- A KMeans oracle with a constant in-range result, for the concrete
witness. -/
def kmConst : KMeansOracle :=
  fun _ _ => .ok ((fun _ => 0), (fun _ => (0, 0, 0)))

/-- Witness for C10 at a concrete oracle and image. -/
theorem detect_background_colors_record_invariants_witness :
    (∀ rec ∈ detect_background_colors kmConst testColor 150,
      3 ≤ rec.region_count ∧
      ∃ r g b : ℕ, r < 256 ∧ g < 256 ∧ b < 256 ∧
        rec.rgb = [(r : ℤ), (g : ℤ), (b : ℤ)] ∧ rec.hex = hexRGB r g b) ∧
    (((sampleRegions testColor).map Prod.fst).length < 2 →
      detect_background_colors kmConst testColor 150 = []) :=
  detect_background_colors_record_invariants kmConst testColor 150
    (fun n data => by intro cid; norm_num [kmConst, centersInRange])

end VisualParser
